import Mathlib

/-! Formal model of the generation-and-audit orchestration pipeline of the
2TruthsAndAnAi repository: the sentence segmenter and citation extractor
(citation_extractor.py), the content-source client (wikipedia_client.py),
the deception round controller (game_manager.py) and the quiz round
controller (wiki_game_manager.py).  External agent calls and network
fetches are modelled as explicit environments supplying each call's
outcome (structured output, or an exception); everything the repository
itself computes is translated directly from the Python source. -/

/-! String utilities mirroring the exact Python primitives the source
uses (str.strip, str.lower, substring membership, str.split,
str.replace).  They are written over explicit character lists by
structural recursion so that every concrete instance reduces in the
kernel. -/

/-- Python str.strip on a character list: drop leading and trailing
whitespace. -/
def trimChars (l : List Char) : List Char :=
  ((l.dropWhile Char.isWhitespace).reverse.dropWhile Char.isWhitespace).reverse

/-- Python str.strip. -/
def pyStrip (s : String) : String := String.mk (trimChars s.toList)

/-- Python str.lower (ASCII case folding, which is all the source feeds it). -/
def pyLower (s : String) : String := String.mk (s.toList.map Char.toLower)

/-- Python substring membership: needle in hay. -/
def isSubstring (needle hay : String) : Bool :=
  (List.range (hay.toList.length + 1)).any
    (fun i => needle.toList.isPrefixOf (hay.toList.drop i))

/-- Worker for splitting a character list at every separator character,
keeping empty pieces, as Python str.split with an explicit separator does. -/
def splitWhenGo (p : Char → Bool) : List Char → List Char → List String
  | [], cur => [String.mk cur.reverse]
  | c :: rest, cur =>
    if p c then String.mk cur.reverse :: splitWhenGo p rest []
    else splitWhenGo p rest (c :: cur)

/-- Split a string at every character satisfying p, keeping empty pieces. -/
def splitWhen (p : Char → Bool) (s : String) : List String :=
  splitWhenGo p s.toList []

/-- Python str.split() with no argument: split on whitespace and drop the
empty pieces, i.e. the list of whitespace-separated words. -/
def pyWords (s : String) : List String :=
  (splitWhen Char.isWhitespace s).filter (fun w => w ≠ "")

/-- Fuel-indexed worker for Python str.replace: scan left to right and
replace every non-overlapping occurrence of pat by rep.  One unit of fuel
is spent per step and every step consumes at least one input character,
so fuel equal to the input length makes the fuel bound unreachable. -/
def replaceGo (pat rep : List Char) : Nat → List Char → List Char
  | _, [] => []
  | 0, l => l
  | fuel + 1, c :: rest =>
    if pat.isPrefixOf (c :: rest) ∧ pat ≠ [] then
      rep ++ replaceGo pat rep fuel ((c :: rest).drop pat.length)
    else c :: replaceGo pat rep fuel rest

/-- Python str.replace. -/
def pyReplace (s pat rep : String) : String :=
  String.mk (replaceGo pat.toList rep.toList s.toList.length s.toList)

/-- Python-style join: sep.join(pieces). -/
def joinSep (sep : String) : List String → String
  | [] => ""
  | [s] => s
  | s :: rest => s ++ sep ++ joinSep sep rest

/-- Python list indexing l[i] for a possibly negative int index:
negative indices count from the end; out of range raises (modelled as
none). -/
def pyGet {α : Type} (l : List α) (i : Int) : Option α :=
  if 0 ≤ i then l.get? i.toNat
  else if 0 ≤ (l.length : Int) + i then l.get? ((l.length : Int) + i).toNat
  else none

/-! Citation extractor (citation_extractor.py).  SourceCitation is the
pydantic model from models.py; the three methods of CitationExtractor are
translated one to one. -/

/-- SourceCitation (models.py): the exact sentence from the source that
justifies the answer, with its section and ordinal position. -/
structure SourceCitation where
  sentence : String
  section_title : String
  section_url : String
  sentence_index : Nat

deriving instance DecidableEq, Repr for SourceCitation

/-- The abbreviation replacements applied, in source order, by
CitationExtractor._split_into_sentences before splitting. -/
def abbrevPairs : List (String × String) :=
  [("Dr.", "Dr"), ("Mr.", "Mr"), ("Mrs.", "Mrs"), ("Ms.", "Ms"),
   ("Prof.", "Prof"), ("Sr.", "Sr"), ("Jr.", "Jr"),
   ("U.S.", "US"), ("U.K.", "UK")]

/-- Apply the nine successive str.replace calls of
_split_into_sentences. -/
def normalizeAbbrevs (text : String) : String :=
  abbrevPairs.foldl (fun t p => pyReplace t p.1 p.2) text

/-- Character scan of _split_into_sentences: append each character to the
current segment; a sentence ends at a period, exclamation or question
mark when the segment has more than one character; a stripped segment is
kept only when longer than 10 characters. -/
def splitSentencesGo : List Char → List Char → List String → List String
  | [], cur, acc =>
    if cur ≠ [] then
      if (pyStrip (String.mk cur)).length > 10 then acc ++ [pyStrip (String.mk cur)]
      else acc
    else acc
  | c :: rest, cur, acc =>
    if (c = '.' ∨ c = '!' ∨ c = '?') ∧ (cur ++ [c]).length > 1 then
      splitSentencesGo rest []
        (if (pyStrip (String.mk (cur ++ [c]))).length > 10 then
          acc ++ [pyStrip (String.mk (cur ++ [c]))]
         else acc)
    else splitSentencesGo rest (cur ++ [c]) acc

/-- CitationExtractor._split_into_sentences. -/
def split_into_sentences (text : String) : List String :=
  splitSentencesGo (normalizeAbbrevs text).toList [] []

/-- CitationExtractor._contains_answer: case-insensitive substring
match, else — for multi-word answers — every answer word longer than two
characters must occur in the sentence. -/
def contains_answer (sentence answer : String) : Bool :=
  if isSubstring (pyLower answer) (pyLower sentence) then true
  else if (pyWords (pyLower answer)).length > 1 then
    ((pyWords (pyLower answer)).filter (fun w => w.length > 2)).all
      (fun w => isSubstring w (pyLower sentence))
  else false

/-- Search loop of CitationExtractor.extract_citation: first sentence (in
document order, with its index) containing the answer. -/
def findCitationGo (answer st su : String) : Nat → List String → Option SourceCitation
  | _, [] => none
  | idx, s :: rest =>
    if contains_answer s answer then some ⟨pyStrip s, st, su, idx⟩
    else findCitationGo answer st su (idx + 1) rest

/-- CitationExtractor.extract_citation. -/
def extract_citation (source_text answer_text : String)
    (section_title : String := "Unknown") (section_url : String := "") :
    Option SourceCitation :=
  findCitationGo answer_text section_title section_url 0
    (split_into_sentences source_text)

/-- CitationExtractor.extract_citation_for_question: collect candidate
sentences containing the correct answer; both the single-candidate and
the multi-candidate branch of the source return the first candidate.
The question text is received but not used by the source either. -/
def extract_citation_for_question (source_text question_text correct_answer : String)
    (section_title : String := "Unknown") (section_url : String := "") :
    Option SourceCitation :=
  match ((split_into_sentences source_text).enum.filter
      (fun p => contains_answer p.2 correct_answer)) with
  | [] => none
  | c :: _ => some ⟨pyStrip c.2, section_title, section_url, c.1⟩

/-! Claims C5, C6, C7, C9 about the citation extractor. -/

/-- C5 counterexample: segmenting exactly "Dr. Smith arrived. He left."
does not yield two sentences with "He left." second — the second segment
is only 8 characters long and the segmenter discards stripped segments of
10 characters or fewer as noise. -/
theorem split_dr_smith_not_two_sentences :
    ¬ ((split_into_sentences "Dr. Smith arrived. He left.").length = 2 ∧
       (split_into_sentences "Dr. Smith arrived. He left.").getD 1 "" = "He left.") := by
  decide

/-- C5 (amended): the abbreviation "Dr." produces no false sentence
boundary — but segmenting exactly "Dr. Smith arrived. He left." yields
exactly one sentence, "Dr Smith arrived." (the abbreviation's dot is
stripped by normalization), because the trailing segment "He left." is
8 characters long and segments of 10 characters or fewer are discarded
as noise. -/
theorem split_dr_smith_amended :
    split_into_sentences "Dr. Smith arrived. He left." = ["Dr Smith arrived."] := by
  decide

/-- C6: on source text "The treaty was signed in 1648. It ended the war."
with answer "1648", the extractor returns the sentence
"The treaty was signed in 1648." at sentence index 0 (with the default
section fields). -/
theorem extract_citation_treaty_1648 :
    extract_citation "The treaty was signed in 1648. It ended the war." "1648" =
      some ⟨"The treaty was signed in 1648.", "Unknown", "", 0⟩ := by
  decide

/-- C7: evidence extraction is deterministic and idempotent — two calls
to extract_citation with identical inputs return identical results, in
particular the same sentence and the same sentence index (or none both
times). -/
theorem extract_citation_deterministic (source answer st su : String) :
    extract_citation source answer st su = extract_citation source answer st su ∧
    Option.map SourceCitation.sentence (extract_citation source answer st su) =
      Option.map SourceCitation.sentence (extract_citation source answer st su) ∧
    Option.map SourceCitation.sentence_index (extract_citation source answer st su) =
      Option.map SourceCitation.sentence_index (extract_citation source answer st su) :=
  ⟨rfl, rfl, rfl⟩

/-- Helper: for an answer of at least two whitespace-separated words all
of length at most two, the bag-of-words fallback of _contains_answer
quantifies over an empty word list, so every sentence qualifies. -/
theorem contains_answer_of_short_words (s a : String)
    (hlen : 2 ≤ (pyWords (pyLower a)).length)
    (hshort : ∀ w ∈ pyWords (pyLower a), w.length ≤ 2) :
    contains_answer s a = true := by
  unfold contains_answer
  by_cases hsub : isSubstring (pyLower a) (pyLower s) = true
  · simp [hsub]
  · have hfil : (pyWords (pyLower a)).filter (fun w => w.length > 2) = [] := by
      rw [List.filter_eq_nil_iff]
      intro w hw
      have := hshort w hw
      simp
      omega
    have h1 : (pyWords (pyLower a)).length > 1 := by omega
    simp [hsub, hfil, h1]

/-- C9: for an answer of two or more whitespace-separated words all of
length at most 2 that is not a case-insensitive substring of the
sentence, _contains_answer still returns true (its bag-of-words fallback
checks only the answer words longer than 2 characters, an empty set), and
consequently extract_citation cites the first sentence of any source text
for such an answer. -/
theorem contains_answer_short_multiword (sentence answer source st su : String)
    (hsub : isSubstring (pyLower answer) (pyLower sentence) = false)
    (hlen : 2 ≤ (pyWords (pyLower answer)).length)
    (hshort : ∀ w ∈ pyWords (pyLower answer), w.length ≤ 2) :
    contains_answer sentence answer = true ∧
    (∀ s0 rest, split_into_sentences source = s0 :: rest →
      extract_citation source answer st su = some ⟨pyStrip s0, st, su, 0⟩) := by
  constructor
  · exact contains_answer_of_short_words sentence answer hlen hshort
  · intro s0 rest hsplit
    unfold extract_citation
    rw [hsplit]
    unfold findCitationGo
    rw [if_pos (contains_answer_of_short_words s0 answer hlen hshort)]

/-- C9 witness: the concrete answer "a b" is not a substring of
"Hello there world.", yet _contains_answer accepts, and extract_citation
on a concrete two-sentence source cites the first sentence. -/
theorem contains_answer_short_multiword_witness :
    contains_answer "Hello there world." "a b" = true ∧
    (∀ s0 rest,
      split_into_sentences "Hello there world. Another sentence." = s0 :: rest →
      extract_citation "Hello there world. Another sentence." "a b" "T" "U" =
        some ⟨pyStrip s0, "T", "U", 0⟩) :=
  contains_answer_short_multiword "Hello there world." "a b"
    "Hello there world. Another sentence." "T" "U"
    (by decide) (by decide) (by decide)

/-! Content-source client (wikipedia_client.py).  The wikipedia library
call wikipedia.page(title, auto_suggest) is an external capability; it is
modelled as an environment mapping a title and the auto_suggest flag to
one of its four outcomes: a raw page, a DisambiguationError carrying
candidate titles, a PageError, or any other exception. -/

/-- Raw data returned by the external wikipedia.page call. -/
structure RawPage where
  title : String
  url : String
  content : String
  summary : String
  links : List String

deriving instance DecidableEq, Repr for RawPage

/-- WikipediaPage (wikipedia_client.py dataclass): page plus parsed
sections.  The section map is an insertion-ordered association list,
matching Python dict semantics. -/
structure WikipediaPage where
  title : String
  url : String
  content : String
  summary : String
  links : List String
  sections : List (String × String)

deriving instance DecidableEq, Repr for WikipediaPage

/-- Outcome of one wikipedia.page(title, auto_suggest) call. -/
inductive FetchOutcome where
  | page (raw : RawPage)
  | disambiguation (options : List String)
  | pageError
  | otherError

deriving instance DecidableEq for FetchOutcome

/-- Python str.startswith. -/
def pyStartsWith (p s : String) : Bool := p.toList.isPrefixOf s.toList

/-- Python str.endswith. -/
def pyEndsWith (p s : String) : Bool := p.toList.isSuffixOf s.toList

/-- Python str.strip(chars): drop leading and trailing characters drawn
from the given set. -/
def stripSet (cs : List Char) (s : String) : String :=
  String.mk (((s.toList.dropWhile (fun c => c ∈ cs)).reverse.dropWhile
    (fun c => c ∈ cs)).reverse)

/-- Association-list lookup with string keys (Python dict access). -/
def assocLookup {α : Type} : List (String × α) → String → Option α
  | [], _ => none
  | (k, v) :: rest, key => if k = key then some v else assocLookup rest key

/-- Python dict insert: overwrite in place when the key exists, else
append (insertion order preserved). -/
def dictInsert {α : Type} (d : List (String × α)) (k : String) (v : α) :
    List (String × α) :=
  if d.any (fun p => p.1 = k) then
    d.map (fun p => if p.1 = k then (k, v) else p)
  else d ++ [(k, v)]

/-- Line loop of WikipediaClient._parse_sections: a line wrapped in
"==" markers starts a new section (its title stripped of '=' and spaces);
other lines accumulate into the current section, which starts as
"Introduction"; a section is saved (joined and stripped) when nonempty. -/
def parseSectionsGo : List String → List (String × String) → String → List String →
    List (String × String)
  | [], secs, curName, curContent =>
    if curContent ≠ [] then dictInsert secs curName (pyStrip (joinSep "\n" curContent))
    else secs
  | line :: rest, secs, curName, curContent =>
    if pyStartsWith "==" line ∧ pyEndsWith "==" line then
      parseSectionsGo rest
        (if curContent ≠ [] then dictInsert secs curName (pyStrip (joinSep "\n" curContent))
         else secs)
        (pyStrip (stripSet ['=', ' '] line)) []
    else parseSectionsGo rest secs curName (curContent ++ [line])

/-- WikipediaClient._parse_sections. -/
def parse_sections (content : String) : List (String × String) :=
  parseSectionsGo (splitWhen (fun c => c = '\n') content) [] "Introduction" []

/-- WikipediaClient.get_page, with the process-lifetime cache passed
explicitly and a fuel bound standing for the (absent) recursion limit of
the source; the third component counts the disambiguation-triggered
recursive lookups performed.  On a DisambiguationError the client tries
the first candidate with auto_suggest=False; on a PageError with
auto_suggest=False it retries the same title with auto_suggest=True; all
other failures return none.  A successful fetch is cached under the
requested title; the disambiguation branch returns the recursive result
without caching it under the original title. -/
def getPage (env : String → Bool → FetchOutcome) :
    Nat → List (String × WikipediaPage) → String → Bool →
    (Option WikipediaPage × List (String × WikipediaPage) × Nat)
  | 0, cache, _, _ => (none, cache, 0)
  | fuel + 1, cache, title, autoSuggest =>
    match assocLookup cache title with
    | some p => (some p, cache, 0)
    | none =>
      match env title autoSuggest with
      | FetchOutcome.page raw =>
        (some ⟨raw.title, raw.url, raw.content, raw.summary, raw.links.take 50,
            parse_sections raw.content⟩,
         dictInsert cache title
           ⟨raw.title, raw.url, raw.content, raw.summary, raw.links.take 50,
            parse_sections raw.content⟩,
         0)
      | FetchOutcome.disambiguation opts =>
        match opts with
        | [] => (none, cache, 0)
        | o :: _ =>
          ((getPage env fuel cache o false).1,
           (getPage env fuel cache o false).2.1,
           (getPage env fuel cache o false).2.2 + 1)
      | FetchOutcome.pageError =>
        if autoSuggest then (none, cache, 0)
        else getPage env fuel cache title true
      | FetchOutcome.otherError => (none, cache, 0)

/-- Concrete fetch environment in which the title "A" disambiguates to
"B" (among others) and "B" disambiguates to "C", which resolves to a
page. -/
def envDisambigChain : String → Bool → FetchOutcome := fun t _ =>
  if t = "A" then FetchOutcome.disambiguation ["B", "X"]
  else if t = "B" then FetchOutcome.disambiguation ["C"]
  else if t = "C" then FetchOutcome.page ⟨"C", "u", "body text", "s", []⟩
  else FetchOutcome.pageError

/-- C8 counterexample: looking up "A" in the chained-disambiguation
environment succeeds but performs two disambiguation-triggered recursive
lookups, so the recursion depth along the disambiguation path is not
bounded by 1. -/
theorem getPage_disambig_depth_two :
    ((getPage envDisambigChain 10 [] "A" false).1.isSome = true ∧
     (getPage envDisambigChain 10 [] "A" false).2.2 = 2) ∧
    ¬ (getPage envDisambigChain 10 [] "A" false).2.2 ≤ 1 := by
  decide

/-- C8 (amended): when a title lookup resolves to a disambiguation
result, get_page deterministically picks the first candidate and recurses
on it (with auto_suggest=False), adding one disambiguation-triggered
lookup to however many the recursive call itself performs — the source
imposes no bound of 1 on the recursion depth along the disambiguation
path. -/
theorem getPage_disambig_first_candidate (env : String → Bool → FetchOutcome)
    (fuel : Nat) (cache : List (String × WikipediaPage)) (title : String)
    (autoSuggest : Bool) (o : String) (rest : List String)
    (hc : assocLookup cache title = none)
    (hd : env title autoSuggest = FetchOutcome.disambiguation (o :: rest)) :
    getPage env (fuel + 1) cache title autoSuggest =
      ((getPage env fuel cache o false).1,
       (getPage env fuel cache o false).2.1,
       (getPage env fuel cache o false).2.2 + 1) := by
  conv_lhs => rw [getPage]
  rw [hc, hd]

/-- C8 amended-claim witness: in the chained environment, the lookup of
"B" recurses exactly once more than the lookup of its first candidate
"C". -/
theorem getPage_disambig_first_candidate_witness :
    getPage envDisambigChain 4 [] "B" false =
      ((getPage envDisambigChain 3 [] "C" false).1,
       (getPage envDisambigChain 3 [] "C" false).2.1,
       (getPage envDisambigChain 3 [] "C" false).2.2 + 1) :=
  getPage_disambig_first_candidate envDisambigChain 3 [] "B" false "C" []
    (by decide) (by decide)

/-! Deception round controller (game_manager.py).  GameFact and Verdict
are the legacy pydantic models (models.py) that game_manager.py imports
as the input and audit-output contracts of its stages; confidence scores
are modelled as rationals.  The definitions here embed the controller
logic of run_round typed as those imports intend.  The repository's
actual wiring breaks every attempt before a state can be produced: the
researcher and deceiver agents cannot even be created (agents.py never
imports Fact, so create_researcher_agent and create_deceiver_agent raise
NameError), the wired auditor's output schema is ValidationResult, which
lacks the selection field read at game_manager.py line 68
(AttributeError), and the accept site at line 73 constructs models.py's
GameState without its required wikipedia_page_title and wikipedia_url
(pydantic ValidationError) — the as-wired model at the end of this file
carries those defects and shows run_round can never return a state.  An
AttemptEnv supplies the outcome of the three agent calls of one attempt
(structured output or a raised exception, which run_round catches) and
the two random draws: random.choice is represented by an arbitrary index
into the first three facts and random.shuffle by an arbitrary reordering
function. -/

/-- GameFact models Fact (models.py; the short name Fact is taken by Mathlib): a statement with source and lie flag. -/
structure GameFact where
  content : String
  source : String
  is_lie : Bool

deriving instance DecidableEq, Repr for GameFact

/-- Verdict (models.py): the auditor's pick, confidence and reasoning. -/
structure Verdict where
  selection : Int
  confidence : ℚ
  reasoning : String
  highlight_start : Option Int
  highlight_end : Option Int

deriving instance DecidableEq, Repr for Verdict

/-- The four-field aggregate that the accept site of run_round
(game_manager.py line 73) passes to the GameState constructor and that
app.py reads back (game_facts, auditor_verdict).  models.py's actual
GameState class declares none of these fields and requires others, so in
the program the construction raises instead of producing this value (see
the as-wired model below); the type records the shape the accept site
and app.py agree on. -/
structure DeceptionGameState where
  topic : String
  raw_facts : List GameFact
  game_facts : List GameFact
  auditor_verdict : Verdict

deriving instance DecidableEq, Repr for DeceptionGameState

/-- Environment of one attempt of GameManager.run_round: outcomes of the
researcher, deceiver and auditor calls as typed by game_manager.py's own
imports, plus the two random draws.  (In the repository the researcher
and deceiver agents cannot be constructed and the wired auditor's schema
is ValidationResult; WiredAttemptEnv at the end of the file carries the
wired types.) -/
structure AttemptEnv where
  researchResult : Except Unit (List GameFact)
  victimIdx : Nat
  deceiveResult : Except Unit GameFact
  shuffle : List GameFact → List GameFact
  auditResult : Except Unit Verdict

/-- The circuit-breaker confidence floor 0.8. -/
def auditThreshold : ℚ := mkRat 8 10

/-- Placeholder fact (never reached: the victim index is always within
the first three facts when the attempt gets that far). -/
def defaultFact : GameFact := ⟨"", "", false⟩

/-- true_facts = facts[:3]. -/
def trueFacts (facts : List GameFact) : List GameFact := facts.take 3

/-- victim_fact = random.choice(true_facts), the random draw represented
by an index into the three-element list. -/
def victimFact (facts : List GameFact) (idx : Nat) : GameFact :=
  (trueFacts facts).getD (idx % 3) defaultFact

/-- other_facts: the comprehension keeping every f of true_facts with
f != victim_fact (field-wise pydantic inequality). -/
def otherFacts (facts : List GameFact) (idx : Nat) : List GameFact :=
  (trueFacts facts).filter (fun f => f ≠ victimFact facts idx)

/-- lie_fact.is_lie = True forced by the controller. -/
def forceLie (f : GameFact) : GameFact := { f with is_lie := true }

/-- game_facts before the shuffle: other_facts + [lie_fact]. -/
def preShuffle (facts : List GameFact) (idx : Nat) (lf : GameFact) : List GameFact :=
  otherFacts facts idx ++ [forceLie lf]

/-- game_facts after random.shuffle. -/
def attemptGameFacts (env : AttemptEnv) (facts : List GameFact) (lf : GameFact) : List GameFact :=
  env.shuffle (preShuffle facts env.victimIdx lf)

/-- Index scan of next(i for i, f in enumerate(game_facts) if f.is_lie). -/
def firstLieIdxGo : Nat → List GameFact → Option Nat
  | _, [] => none
  | i, f :: rest => if f.is_lie then some i else firstLieIdxGo (i + 1) rest

/-- actual_lie_index, none when no fact is flagged (in which case the
source raises StopIteration, caught by the retry loop). -/
def firstLieIdx (l : List GameFact) : Option Nat := firstLieIdxGo 0 l

/-- One attempt of GameManager.run_round, its controller logic with
well-typed stage outcomes: research (soft-fail under three facts),
deceive with forced lie flag, assemble and shuffle, blind audit, then
the circuit breaker accepting iff the verdict selects the actual lie
index with confidence at least 0.8.  Any stage exception or rejection
yields none (the loop continues).  In the repository every stage of a
real attempt raises (see runAttemptWired below), so every real attempt
yields none; the retry-loop behavior proved from this model under the
all-attempts-fail hypothesis is therefore exactly the program's. -/
def runAttempt (topic : String) (env : AttemptEnv) : Option DeceptionGameState :=
  match env.researchResult with
  | Except.error _ => none
  | Except.ok facts =>
    if facts.length < 3 then none
    else
      match env.deceiveResult with
      | Except.error _ => none
      | Except.ok lf =>
        match env.auditResult with
        | Except.error _ => none
        | Except.ok verdict =>
          match firstLieIdx (attemptGameFacts env facts lf) with
          | none => none
          | some lieIdx =>
            if verdict.selection = (lieIdx : Int) ∧ auditThreshold ≤ verdict.confidence
            then some ⟨topic, facts, attemptGameFacts env facts lf, verdict⟩
            else none

/-- self.max_retries = 3. -/
def maxRetries : Nat := 3

/-- Retry loop of run_round over the listed attempt numbers, also
counting the attempts performed. -/
def runRoundGo (topic : String) (envs : Nat → AttemptEnv) :
    List Nat → Option DeceptionGameState × Nat
  | [] => (none, 0)
  | a :: rest =>
    match runAttempt topic (envs a) with
    | some gs => (some gs, 1)
    | none => ((runRoundGo topic envs rest).1, (runRoundGo topic envs rest).2 + 1)

/-- GameManager.run_round: attempts 1..max_retries, first accepted state
wins, none after exhaustion. -/
def runRound (topic : String) (envs : Nat → AttemptEnv) : Option DeceptionGameState :=
  (runRoundGo topic envs (List.range' 1 maxRetries)).1

/-- Number of whole research-deceive-assemble-audit attempts run_round
performs. -/
def runRoundAttemptCount (topic : String) (envs : Nat → AttemptEnv) : Nat :=
  (runRoundGo topic envs (List.range' 1 maxRetries)).2

/-- The deceiver's output (lie flag left false by the agent; the
controller forces it). -/
def factLie : GameFact := ⟨"L", "s4", false⟩

/-- C3: if every one of the three attempts is rejected (circuit-breaker
failure, a stage exception, or fewer than three research facts — all the
ways an attempt yields none), run_round performs exactly three whole
attempts of the research-deceive-assemble-audit sequence and returns
none, never a partial round. -/
theorem runRound_exhausts_three_attempts (topic : String) (envs : Nat → AttemptEnv)
    (h : ∀ a ∈ List.range' 1 maxRetries, runAttempt topic (envs a) = none) :
    runRound topic envs = none ∧ runRoundAttemptCount topic envs = 3 := by
  have h1 := h 1 (by decide)
  have h2 := h 2 (by decide)
  have h3 := h 3 (by decide)
  unfold runRound runRoundAttemptCount
  have hr : List.range' 1 maxRetries = [1, 2, 3] := rfl
  rw [hr]
  simp [runRoundGo, h1, h2, h3]

/-- Environment in which every stage raises. -/
def envFail : AttemptEnv :=
  ⟨Except.error (), 0, Except.error (), id, Except.error ()⟩

/-- C3 witness: with every attempt failing, run_round returns none after
exactly three attempts. -/
theorem runRound_exhausts_three_attempts_witness :
    runRound "t" (fun _ => envFail) = none ∧
      runRoundAttemptCount "t" (fun _ => envFail) = 3 :=
  runRound_exhausts_three_attempts "t" (fun _ => envFail) (by decide)

/-- Duplicated researcher fact. -/
def dupX : GameFact := ⟨"X", "s", false⟩

/-- The non-duplicated researcher fact. -/
def dupY : GameFact := ⟨"Y", "s", false⟩

/-- C10 counterexample: with researcher facts [X, Y, X] and the victim
drawn as Y, the assembled game_facts list has exactly 3 elements even
though the first three researcher facts are not pairwise distinct — so
"exactly 3 only when pairwise distinct" fails; duplication only shrinks
the list when the victim itself is the duplicated fact. -/
theorem preShuffle_three_without_distinct :
    (preShuffle [dupX, dupY, dupX] 1 factLie).length = 3 ∧
    ¬ (trueFacts [dupX, dupY, dupX]).Nodup := by
  constructor
  · decide
  · decide

/-- Helper: removing every copy of v from a list removes exactly its
occurrence count. -/
theorem countP_filter_ne_length (l : List GameFact) (v : GameFact) :
    (l.filter (fun f => f ≠ v)).length + l.countP (fun f => f = v) = l.length := by
  induction l with
  | nil => simp
  | cons a t ih =>
    simp only [List.filter_cons, List.countP_cons, List.length_cons]
    by_cases h : a = v
    · rw [if_neg (by simp [h]), if_pos (by simp [h])]
      omega
    · rw [if_pos (by simp [h]), if_neg (by simp [h])]
      simp only [List.length_cons]
      omega

/-- C10 (amended): the assembled game_facts list has exactly 3 elements
iff the randomly chosen victim fact occurs exactly once among the first
three researcher facts; when the victim is field-wise equal to another of
the first three, the comprehension removes every equal copy and the list
has fewer than 3 elements. -/
theorem preShuffle_length_iff_victim_unique (facts : List GameFact) (idx : Nat)
    (lf : GameFact) (h3 : 3 ≤ facts.length) :
    ((preShuffle facts idx lf).length = 3 ↔
      (trueFacts facts).countP (fun f => f = victimFact facts idx) = 1) ∧
    (2 ≤ (trueFacts facts).countP (fun f => f = victimFact facts idx) →
      (preShuffle facts idx lf).length < 3) := by
  have hT : (trueFacts facts).length = 3 := by
    unfold trueFacts
    simp [List.length_take]
    omega
  have hmem : victimFact facts idx ∈ trueFacts facts := by
    unfold victimFact
    have hlt : idx % 3 < (trueFacts facts).length := by
      rw [hT]; exact Nat.mod_lt idx (by omega)
    rw [List.getD_eq_getElem _ _ hlt]
    exact List.getElem_mem hlt
  have hpos : 0 < (trueFacts facts).countP (fun f => f = victimFact facts idx) := by
    rw [List.countP_pos_iff]
    exact ⟨victimFact facts idx, hmem, by simp⟩
  have hkey := countP_filter_ne_length (trueFacts facts) (victimFact facts idx)
  have hle := List.countP_le_length (fun f => f = victimFact facts idx)
    (l := trueFacts facts)
  have hflen : (preShuffle facts idx lf).length =
      ((trueFacts facts).filter (fun f => f ≠ victimFact facts idx)).length + 1 := by
    unfold preShuffle otherFacts
    simp [List.length_append]
  rw [hT] at hkey
  constructor
  · rw [hflen]; omega
  · intro h2; rw [hflen]; omega

/-- C10 amended-claim witness: with facts [X, Y, X] and victim Y (which
occurs exactly once), the assembly has exactly 3 elements, and the
duplication implication holds vacuously there. -/
theorem preShuffle_length_iff_victim_unique_witness :
    (((preShuffle [dupX, dupY, dupX] 1 factLie).length = 3 ↔
      (trueFacts [dupX, dupY, dupX]).countP
        (fun f => f = victimFact [dupX, dupY, dupX] 1) = 1) ∧
    (2 ≤ (trueFacts [dupX, dupY, dupX]).countP
        (fun f => f = victimFact [dupX, dupY, dupX] 1) →
      (preShuffle [dupX, dupY, dupX] 1 factLie).length < 3)) :=
  preShuffle_length_iff_victim_unique [dupX, dupY, dupX] 1 factLie (by decide)

/-! Quiz round controller (wiki_game_manager.py) with its pydantic models
(models.py).  The fetched page, the section-picker call (primary and
fallback), the per-attempt quiz-maker and auditor calls, and the
relevance call are supplied by an environment; errors carry the raw
message where the source classifies it (the 503/overload check).  The
GameState fields round_id (a random UUID) and debug_logs (wall-clock
timestamped, appended only in debug mode, which defaults to off) are
presentation-only and omitted; user_answer and is_correct are carried
untouched. -/

/-- Question (models.py). -/
structure Question where
  question_text : String
  options : List String
  correct_answer_index : Int
  difficulty : String
  explanation : String

deriving instance DecidableEq, Repr for Question

/-- SelectedSections (models.py). -/
structure SelectedSections where
  sections : List String
  reasoning : String

deriving instance DecidableEq, Repr for SelectedSections

/-- ValidationResult (models.py). -/
structure ValidationResult where
  is_valid : Bool
  confidence : ℚ
  issues : Option String
  correction_note : Option String

deriving instance DecidableEq, Repr for ValidationResult

/-- RelevanceScore (models.py). -/
structure RelevanceScore where
  link_title : String
  relevance_score : ℚ
  reasoning : String

deriving instance DecidableEq, Repr for RelevanceScore

/-- GameState (models.py), the quiz round aggregate. -/
structure GameState where
  wikipedia_page_title : String
  wikipedia_url : String
  selected_sections : Option SelectedSections
  question : Option Question
  source_citation : Option SourceCitation
  available_links : List RelevanceScore
  user_answer : Option Int
  is_correct : Option Bool
  correction_attempts : Nat

deriving instance DecidableEq, Repr for GameState

/-- Outcomes of the quiz-maker and auditor calls of one correction-loop
attempt. -/
structure QuizAttemptEnv where
  quizResult : Except Unit Question
  auditResult : Except Unit ValidationResult

/-- Environment of one WikiQuizGameManager.run_round call. -/
structure QuizEnv where
  fetchedPage : Option WikipediaPage
  sectionResult : Except String SelectedSections
  fallbackResult : Except String SelectedSections
  attemptEnv : Nat → QuizAttemptEnv
  relevanceResult : Except Unit (List RelevanceScore)

/-- The source's overload classifier: '503' in the message or
'high demand' in its lowercase form. -/
def isOverloadError (msg : String) : Bool :=
  isSubstring "503" msg || isSubstring "high demand" (pyLower msg)

/-- One entry of _map_sections_to_names: the first Wikipedia section
whose content contains the stripped selected text, else a generic
name. -/
def sectionNameOf (wikiSections : List (String × String)) (i : Nat)
    (text : String) : String :=
  match wikiSections.find? (fun kv => isSubstring (pyStrip text) kv.2) with
  | some kv => kv.1
  | none => "Section " ++ toString (i + 1)

/-- WikiQuizGameManager._map_sections_to_names. -/
def mapSectionsToNames (wikiSections : List (String × String))
    (selectedTexts : List String) : List (Nat × String) :=
  selectedTexts.enum.map (fun p => (p.1, sectionNameOf wikiSections p.1 p.2))

/-- Python dict .get with default, over nat keys. -/
def natAssocGet (d : List (Nat × String)) (k : Nat) (dflt : String) : String :=
  match d.find? (fun p => p.1 = k) with
  | some p => p.2
  | none => dflt

/-- The citation-section search of run_round step 4: the first selected
section containing the correct answer names the section and yields an
anchored url (spaces replaced by underscores); otherwise the generic
"Wikipedia" name with the bare page url. -/
def citationSection (selTexts : List String) (mapping : List (Nat × String))
    (pageUrl correctAnswer : String) : String × String :=
  match selTexts.enum.find? (fun p => contains_answer p.2 correctAnswer) with
  | some p =>
    (natAssocGet mapping p.1 "Wikipedia",
     pageUrl ++ "#" ++ pyReplace (natAssocGet mapping p.1 "Wikipedia") " " "_")
  | none => ("Wikipedia", pageUrl)

/-- The initial GameState of run_round with the url filled in after the
fetch. -/
def initQuizState (title url : String) (sel : SelectedSections) : GameState :=
  { wikipedia_page_title := title, wikipedia_url := url,
    selected_sections := some sel, question := none, source_citation := none,
    available_links := [], user_answer := none, is_correct := none,
    correction_attempts := 0 }

/-- Correction loop of run_round (attempts listed in order).  Each
iteration records the attempt number, then: a quiz-maker exception
returns none on the last attempt and otherwise retries; building the
auditor input indexes options by the claimed answer index (an IndexError
there, or an auditor exception, publishes the question on the last
attempt and otherwise retries); a valid verdict with confidence at least
0.8 accepts the question; a rejection retries, except on the last attempt
where the question is published anyway (graceful degradation). -/
def quizLoopGo (envs : Nat → QuizAttemptEnv) (maxA : Nat) :
    List Nat → GameState → Option GameState
  | [], st => some st
  | attempt :: rest, st =>
    match (envs attempt).quizResult with
    | Except.error _ =>
      if attempt = maxA then none
      else quizLoopGo envs maxA rest { st with correction_attempts := attempt }
    | Except.ok q =>
      match pyGet q.options q.correct_answer_index with
      | none =>
        if attempt = maxA then
          some { st with correction_attempts := attempt, question := some q }
        else quizLoopGo envs maxA rest { st with correction_attempts := attempt }
      | some _ =>
        match (envs attempt).auditResult with
        | Except.error _ =>
          if attempt = maxA then
            some { st with correction_attempts := attempt, question := some q }
          else quizLoopGo envs maxA rest { st with correction_attempts := attempt }
        | Except.ok validation =>
          if validation.is_valid = true ∧ auditThreshold ≤ validation.confidence then
            some { st with correction_attempts := attempt, question := some q }
          else if attempt < maxA then
            quizLoopGo envs maxA rest { st with correction_attempts := attempt }
          else
            some { st with correction_attempts := attempt, question := some q }

/-- Step 4 of run_round: extract the source citation (any IndexError on
the answer index is caught and skips the step; an unfound citation leaves
the field unset). -/
def citationStep (page : WikipediaPage) (sel : SelectedSections) (q : Question)
    (st : GameState) : GameState :=
  match pyGet q.options q.correct_answer_index with
  | none => st
  | some ans =>
    match extract_citation_for_question (joinSep "\n\n" sel.sections)
        q.question_text ans
        (citationSection sel.sections
          (mapSectionsToNames page.sections sel.sections) page.url ans).1
        (citationSection sel.sections
          (mapSectionsToNames page.sections sel.sections) page.url ans).2 with
    | some c => { st with source_citation := some c }
    | none => st

/-- Step 5 of run_round: best-effort relevance scoring, keeping the top
three scores; a failure leaves the links empty. -/
def relevanceStep (env : QuizEnv) (st : GameState) : GameState :=
  match env.relevanceResult with
  | Except.ok scores => { st with available_links := scores.take 3 }
  | Except.error _ => st

/-- WikiQuizGameManager.run_round: fetch (fatal on failure), section
picking with one fallback retry on an overload-class error (fatal
otherwise), the correction loop, then citation and relevance decoration
of the resulting state. -/
def quizRunRound (maxA : Nat) (env : QuizEnv) (page_title : String) :
    Option GameState :=
  match env.fetchedPage with
  | none => none
  | some page =>
    match (match env.sectionResult with
           | Except.ok s => some s
           | Except.error msg =>
             if isOverloadError msg then
               match env.fallbackResult with
               | Except.ok s => some s
               | Except.error _ => none
             else none) with
    | none => none
    | some sel =>
      match quizLoopGo env.attemptEnv maxA (List.range' 1 maxA)
          (initQuizState page_title page.url sel) with
      | none => none
      | some st2 =>
        match st2.question with
        | none => none
        | some q => some (relevanceStep env (citationStep page sel q st2))

/-- Helper: the citation step never touches the published question. -/
theorem citationStep_question (page : WikipediaPage) (sel : SelectedSections)
    (q : Question) (st : GameState) :
    (citationStep page sel q st).question = st.question := by
  unfold citationStep
  split
  · rfl
  · split <;> rfl

/-- Helper: the citation step never touches the attempt counter. -/
theorem citationStep_attempts (page : WikipediaPage) (sel : SelectedSections)
    (q : Question) (st : GameState) :
    (citationStep page sel q st).correction_attempts = st.correction_attempts := by
  unfold citationStep
  split
  · rfl
  · split <;> rfl

/-- Helper: the relevance step never touches the published question. -/
theorem relevanceStep_question (env : QuizEnv) (st : GameState) :
    (relevanceStep env st).question = st.question := by
  unfold relevanceStep
  split <;> rfl

/-- Helper: the relevance step never touches the attempt counter. -/
theorem relevanceStep_attempts (env : QuizEnv) (st : GameState) :
    (relevanceStep env st).correction_attempts = st.correction_attempts := by
  unfold relevanceStep
  split <;> rfl

/-- C4: when the fetch and the section picker succeed and the correction
loop exhausts all 3 attempts with the quiz maker and auditor responding
but validation failing every time, run_round does not return none: the
returned GameState carries the attempt-3 question with
correction_attempts = 3. -/
theorem quizRunRound_degrades_gracefully (env : QuizEnv) (title : String)
    (page : WikipediaPage) (sel : SelectedSections)
    (q1 q2 q3 : Question) (v1 v2 v3 : ValidationResult)
    (hp : env.fetchedPage = some page)
    (hs : env.sectionResult = Except.ok sel)
    (hq1 : (env.attemptEnv 1).quizResult = Except.ok q1)
    (hg1 : (pyGet q1.options q1.correct_answer_index).isSome = true)
    (ha1 : (env.attemptEnv 1).auditResult = Except.ok v1)
    (hv1 : ¬ (v1.is_valid = true ∧ auditThreshold ≤ v1.confidence))
    (hq2 : (env.attemptEnv 2).quizResult = Except.ok q2)
    (hg2 : (pyGet q2.options q2.correct_answer_index).isSome = true)
    (ha2 : (env.attemptEnv 2).auditResult = Except.ok v2)
    (hv2 : ¬ (v2.is_valid = true ∧ auditThreshold ≤ v2.confidence))
    (hq3 : (env.attemptEnv 3).quizResult = Except.ok q3)
    (hg3 : (pyGet q3.options q3.correct_answer_index).isSome = true)
    (ha3 : (env.attemptEnv 3).auditResult = Except.ok v3)
    (hv3 : ¬ (v3.is_valid = true ∧ auditThreshold ≤ v3.confidence)) :
    ∃ st, quizRunRound 3 env title = some st ∧
      st.question = some q3 ∧ st.correction_attempts = 3 := by
  obtain ⟨a1, hA1⟩ := Option.isSome_iff_exists.mp hg1
  obtain ⟨a2, hA2⟩ := Option.isSome_iff_exists.mp hg2
  obtain ⟨a3, hA3⟩ := Option.isSome_iff_exists.mp hg3
  have hstep3 : quizLoopGo env.attemptEnv 3 [3]
      { initQuizState title page.url sel with correction_attempts := 2 } =
      some { initQuizState title page.url sel with
        correction_attempts := 3, question := some q3 } := by
    conv_lhs => rw [quizLoopGo]
    simp only [hq3, hA3, ha3]
    rw [if_neg hv3, if_neg (by decide : ¬ (3 : Nat) < 3)]
  have hstep2 : quizLoopGo env.attemptEnv 3 [2, 3]
      { initQuizState title page.url sel with correction_attempts := 1 } =
      some { initQuizState title page.url sel with
        correction_attempts := 3, question := some q3 } := by
    conv_lhs => rw [quizLoopGo]
    simp only [hq2, hA2, ha2]
    rw [if_neg hv2, if_pos (by decide : (2 : Nat) < 3)]
    exact hstep3
  have hstep1 : quizLoopGo env.attemptEnv 3 [1, 2, 3]
      (initQuizState title page.url sel) =
      some { initQuizState title page.url sel with
        correction_attempts := 3, question := some q3 } := by
    conv_lhs => rw [quizLoopGo]
    simp only [hq1, hA1, ha1]
    rw [if_neg hv1, if_pos (by decide : (1 : Nat) < 3)]
    exact hstep2
  have hrange : List.range' 1 3 = [1, 2, 3] := rfl
  refine ⟨relevanceStep env (citationStep page sel q3
    { initQuizState title page.url sel with
      correction_attempts := 3, question := some q3 }), ?_, ?_, ?_⟩
  · unfold quizRunRound
    simp only [hp, hs, hrange, hstep1]
  · rw [relevanceStep_question, citationStep_question]
  · rw [relevanceStep_attempts, citationStep_attempts]

/-- Concrete question for the C4 witness. -/
def questionW : Question := ⟨"Which?", ["a", "b", "c", "d"], 0, "Medium", "e"⟩

/-- Rejecting validation for the C4 witness (invalid, confidence 0.5). -/
def validationW : ValidationResult := ⟨false, mkRat 1 2, none, none⟩

/-- Concrete page for the C4 witness. -/
def pageW : WikipediaPage :=
  ⟨"T", "u", "body", "s", [], [("Introduction", "body")]⟩

/-- Quiz environment for the C4 witness: every attempt generates the same
question and the auditor rejects it every time. -/
def quizEnvW : QuizEnv :=
  ⟨some pageW, Except.ok ⟨["body"], "r"⟩, Except.error "",
   fun _ => ⟨Except.ok questionW, Except.ok validationW⟩, Except.error ()⟩

/-- C4 witness: with all three validations failing, the round still
returns a state carrying the attempt-3 question and three recorded
attempts. -/
theorem quizRunRound_degrades_gracefully_witness :
    ∃ st, quizRunRound 3 quizEnvW "T" = some st ∧
      st.question = some questionW ∧ st.correction_attempts = 3 :=
  quizRunRound_degrades_gracefully quizEnvW "T" pageW ⟨["body"], "r"⟩
    questionW questionW questionW validationW validationW validationW
    rfl rfl rfl (by decide) rfl (by decide)
    rfl (by decide) rfl (by decide)
    rfl (by decide) rfl (by decide)

/-! The deception pipeline as actually wired in the repository.  The
deception section above gives the controller logic typed as
game_manager.py's imports intend; the wired program differs at three
points, each visible in the source: (1) agents.py imports only the quiz
models, so create_researcher_agent (line 180) and create_deceiver_agent
(line 194) reference the undefined name Fact and raise NameError when
called; (2) the audit stage is create_auditor_agent (agents.py line 95),
whose declared output schema is ValidationResult with no selection
field, so verdict.selection (game_manager.py line 68) raises
AttributeError; (3) the accept site (game_manager.py line 73) constructs
models.py's GameState without its required wikipedia_page_title and
wikipedia_url, so pydantic raises ValidationError.  Each raise is caught
by the except at game_manager.py line 88 and the attempt yields
nothing. -/

/-- create_researcher_agent (agents.py line 180): the Agent is built
with output_type=List[Fact], but Fact is not among agents.py's imports,
so the call raises NameError unconditionally. -/
def createResearcherAgent : Except Unit Unit := Except.error ()

/-- create_deceiver_agent (agents.py line 194): likewise references the
unimported name Fact and raises NameError unconditionally. -/
def createDeceiverAgent : Except Unit Unit := Except.error ()

/-- verdict.selection at game_manager.py line 68, where verdict is the
wired auditor's output, a ValidationResult: pydantic models raise
AttributeError for a field the schema does not declare, and
ValidationResult declares no selection field. -/
def validationResultSelection (v : ValidationResult) : Except Unit Int :=
  Except.error ()

/-- The GameState construction at game_manager.py line 73: models.py's
GameState requires wikipedia_page_title and wikipedia_url, which the
call does not pass, so pydantic validation fails (the keywords topic,
raw_facts, game_facts and auditor_verdict are extras ignored under the
default config; the missing required fields raise ValidationError). -/
def gameStateLine73 (topic : String) (raw_facts game_facts : List GameFact)
    (auditor_verdict : ValidationResult) : Except Unit GameState :=
  Except.error ()

/-- Environment of one wired attempt: what each agent call would return
if it got to run, with the auditor typed at its actual ValidationResult
schema, plus the two random draws. -/
structure WiredAttemptEnv where
  researchResult : Except Unit (List GameFact)
  victimIdx : Nat
  deceiveResult : Except Unit GameFact
  shuffle : List GameFact → List GameFact
  auditResult : Except Unit ValidationResult

/-- One attempt of GameManager.run_round as wired: the control flow of
runAttempt with the agent constructions, the selection attribute access
and the accept-site state construction taken from the repository, each
of which raises and is caught by the retry loop. -/
def runAttemptWired (topic : String) (env : WiredAttemptEnv) :
    Option GameState :=
  match createResearcherAgent with
  | Except.error _ => none
  | Except.ok _ =>
    match env.researchResult with
    | Except.error _ => none
    | Except.ok facts =>
      if facts.length < 3 then none
      else
        match createDeceiverAgent with
        | Except.error _ => none
        | Except.ok _ =>
          match env.deceiveResult with
          | Except.error _ => none
          | Except.ok lf =>
            match env.auditResult with
            | Except.error _ => none
            | Except.ok verdict =>
              match validationResultSelection verdict with
              | Except.error _ => none
              | Except.ok selection =>
                match firstLieIdx (env.shuffle (preShuffle facts env.victimIdx lf)) with
                | none => none
                | some lieIdx =>
                  if selection = (lieIdx : Int) ∧ auditThreshold ≤ verdict.confidence
                  then
                    match gameStateLine73 topic facts
                        (env.shuffle (preShuffle facts env.victimIdx lf)) verdict with
                    | Except.error _ => none
                    | Except.ok gs => some gs
                  else none

/-- Retry loop of the wired run_round, counting attempts. -/
def runRoundWiredGo (topic : String) (envs : Nat → WiredAttemptEnv) :
    List Nat → Option GameState × Nat
  | [] => (none, 0)
  | a :: rest =>
    match runAttemptWired topic (envs a) with
    | some gs => (some gs, 1)
    | none =>
      ((runRoundWiredGo topic envs rest).1, (runRoundWiredGo topic envs rest).2 + 1)

/-- GameManager.run_round as wired in the repository. -/
def runRoundWired (topic : String) (envs : Nat → WiredAttemptEnv) :
    Option GameState :=
  (runRoundWiredGo topic envs (List.range' 1 maxRetries)).1

/-- Attempts the wired run_round performs. -/
def runRoundWiredAttemptCount (topic : String) (envs : Nat → WiredAttemptEnv) : Nat :=
  (runRoundWiredGo topic envs (List.range' 1 maxRetries)).2

/-- C1 (code_bug evidence): as wired, GameManager.run_round can never
return a GameState — create_researcher_agent raises NameError before any
research runs (and the wired auditor's output has no selection field,
and the accept-site GameState construction fails pydantic validation) —
so for every topic and every environment, all three attempts fail and
run_round returns none.  In particular an attempt whose audit would
satisfy the circuit breaker still produces no GameState, contradicting
the claim that a passing breaker yields one. -/
theorem runRound_wired_never_returns (topic : String)
    (envs : Nat → WiredAttemptEnv) :
    runRoundWired topic envs = none ∧
      runRoundWiredAttemptCount topic envs = 3 :=
  ⟨rfl, rfl⟩

/-- C2 (code_bug evidence): the controller's only lie-flag enforcement
is forcing the deceiver's fact to is_lie = true — the assembled
game_facts carry exactly one more lie flag than the researcher facts
kept alongside, whatever flags those arrived with, so nothing enforces
exactly one lie regardless of what the generation calls return;
concretely, a researcher fact arriving with is_lie = true yields a
two-lie assembly.  (And as wired, run_round returns no GameState at all
for the claimed per-returned-state invariant to bear on.) -/
theorem preShuffle_lie_count :
    (∀ (facts : List GameFact) (idx : Nat) (lf : GameFact),
      (preShuffle facts idx lf).countP (fun f => f.is_lie) =
        (otherFacts facts idx).countP (fun f => f.is_lie) + 1) ∧
    (preShuffle [⟨"A", "s", true⟩, ⟨"B", "s", false⟩, ⟨"C", "s", false⟩] 2
        factLie).countP (fun f => f.is_lie) = 2 := by
  constructor
  · intro facts idx lf
    unfold preShuffle
    rw [List.countP_append]
    simp [forceLie]
  · decide
